import Mathlib

/-!
# Verification of the maps-web viewport reconciliation and drawing-state logic

Shallow embedding of the viewport reconciler (`SetBoundsComponent` in the
Leaflet map component and the camera effect in `GoogleMap`), the drawing
session manager (`IntegratedDrawingManager`: `saveDrawnItems`,
`onDrawCreated`, `onDrawEdited`, `onDrawDeleted`) and the feature highlight
tracker (`GeoJSONLayer`: `applyHighlight` and the click handlers).

Numbers are modelled as exact rationals.  The external mapping libraries
(Leaflet / Google Maps) are modelled only through the geometric meaning of
the calls the widget makes: bounds construction (`latLngBounds`,
`bounds.extend`, `getBounds`, `isValid`/`isEmpty`, `getCenter`) and the
camera mutations (`setView`, `setZoom`, `setCenter`, `fitBounds`).
`JSON.parse` of a feature geometry string is modelled by `GeomSrc`: a
geometry string either throws on parse (`malformed`) or parses to a
geometry whose coordinate positions are a list of (lat, lng) pairs.
-/

/-- A host-supplied location (only the coordinate fields matter to the
reconciler; title/icon/click metadata never influence the camera). -/
structure Marker where
  latitude : ℚ
  longitude : ℚ
deriving DecidableEq, Repr

/-- Model of a GeoJSON geometry string: `JSON.parse` either throws on it
(`malformed`) or yields a geometry whose coordinate positions are `pts`. -/
inductive GeomSrc where
  | malformed : GeomSrc
  | geom : List (ℚ × ℚ) → GeomSrc
deriving DecidableEq, Repr

/-- A host-supplied GeoJSON feature: geometry string plus optional style
overrides (see `typings/shared.d.ts`). -/
structure Feature where
  geoJSON : GeomSrc
  color : Option String := none
  stroke : Option Bool := none
  weight : Option ℚ := none
  opacity : Option ℚ := none
  fill : Option Bool := none
  fillColor : Option String := none
  fillOpacity : Option ℚ := none
deriving DecidableEq, Repr

/-- The `zoomTo` configuration property. -/
inductive ZoomTarget where
  | currentLocation : ZoomTarget
  | markers : ZoomTarget
deriving DecidableEq, Repr

/-- A Leaflet/Google `LatLngBounds` value (south-west and north-east
corners). -/
structure LatLngBounds where
  south : ℚ
  west : ℚ
  north : ℚ
  east : ℚ
deriving DecidableEq, Repr

/-- Bounds of a single point. -/
def pointBounds (p : ℚ × ℚ) : LatLngBounds :=
  ⟨p.1, p.2, p.1, p.2⟩

/-- `bounds.extend(latlng)`. -/
def extendPoint (b : LatLngBounds) (p : ℚ × ℚ) : LatLngBounds :=
  ⟨min b.south p.1, min b.west p.2, max b.north p.1, max b.east p.2⟩

/-- `bounds.extend(otherBounds)`. -/
def extendBounds (a b : LatLngBounds) : LatLngBounds :=
  ⟨min a.south b.south, min a.west b.west, max a.north b.north, max a.east b.east⟩

/-- `latLngBounds(points)` / `layer.getBounds()`: `none` models an invalid
(empty) bounds object, i.e. `isValid()` is false / `isEmpty()` is true. -/
def boundsOfPoints : List (ℚ × ℚ) → Option LatLngBounds
  | [] => none
  | p :: ps => some (ps.foldl extendPoint (pointBounds p))

/-- `bounds.getCenter()`. -/
def boundsCenter (b : LatLngBounds) : ℚ × ℚ :=
  ((b.south + b.north) / 2, (b.west + b.east) / 2)

/-- A camera mutation applied to the live map view. -/
inductive CameraMutation where
  | setView : ℚ → ℚ → ℚ → CameraMutation
  | setZoom : ℚ → CameraMutation
  | setCenter : ℚ → ℚ → CameraMutation
  | fitBounds : LatLngBounds → CameraMutation
deriving DecidableEq, Repr

/-- The props consumed by `SetBoundsComponent`. -/
structure SetBoundsProps where
  autoZoom : Bool
  currentLocation : Option Marker
  locations : List Marker
  features : List Feature
  enableDrawing : Bool
  zoomTo : ZoomTarget
  zoomLevel : ℚ
  showCurrentLocation : Bool
deriving DecidableEq, Repr

/-- `locations.concat(showCurrentLocation && currentLocation ? [currentLocation] : []).filter(m => !!m)`. -/
def allLocationsOf (p : SetBoundsProps) : List Marker :=
  p.locations ++ (if p.showCurrentLocation then p.currentLocation.toList else [])

/-- JSON serialization of a boolean. -/
def jsonBool (b : Bool) : String :=
  if b then "true" else "false"

/-- The per-location string of the hash: backtick-template of latitude and
longitude. -/
def locationString (l : Marker) : String :=
  toString l.latitude ++ "," ++ toString l.longitude

/-- `JSON.stringify` of the reconciliation data hash object.  Note that it
covers feature data only through `featureCount`. -/
def dataHash (locs : List Marker) (featureCount : Nat) (autoZoom mapReady : Bool) : String :=
  "\x7b\"locationCount\":" ++ toString locs.length ++
    ",\"locations\":[" ++
    String.intercalate "," (locs.map fun l => "\"" ++ locationString l ++ "\"") ++
    "],\"featureCount\":" ++ toString featureCount ++
    ",\"autoZoom\":" ++ jsonBool autoZoom ++
    ",\"mapReady\":" ++ jsonBool mapReady ++ "\x7d"

/-- The fingerprint computed by a default-path reconciliation pass. -/
def passFingerprint (p : SetBoundsProps) (mapReady : Bool) : String :=
  dataHash (allLocationsOf p) p.features.length p.autoZoom mapReady

/-- `JSON.stringify` of the current-location hash object. -/
def currentLocationHash (loc : Option Marker) (effectiveZoomLevel : ℚ) (mapReady : Bool) : String :=
  "\x7b\"zoomTo\":\"currentLocation\",\"currentLocation\":" ++
    (match loc with
     | some l => "\"" ++ toString l.latitude ++ "," ++ toString l.longitude ++ "\""
     | none => "null") ++
    ",\"effectiveZoomLevel\":" ++ toString effectiveZoomLevel ++
    ",\"mapReady\":" ++ jsonBool mapReady ++ "\x7d"

/-- `const effectiveZoomLevel = autoZoom ? 15 : zoomLevel`. -/
def effectiveZoom (p : SetBoundsProps) : ℚ :=
  if p.autoZoom then 15 else p.zoomLevel

/-- The hash guarding the current-location branch. -/
def clHashOf (p : SetBoundsProps) (mapReady : Bool) : String :=
  currentLocationHash p.currentLocation (effectiveZoom p) mapReady

/-- `features.map(feature => JSON.parse(feature.geoJSON))`: JavaScript map
throws at the first malformed geometry, aborting the whole list. -/
def parseAll : List Feature → Option (List (List (ℚ × ℚ)))
  | [] => some []
  | f :: fs =>
    match f.geoJSON with
    | GeomSrc.malformed => none
    | GeomSrc.geom pts =>
      match parseAll fs with
      | none => none
      | some rest => some (pts :: rest)

/-- The bounds computed by the body of the `setTimeout` callback in
`SetBoundsComponent`: location bounds, extended with the bounds of the
parsed feature collection; a parse exception is caught and drops the whole
feature contribution. -/
def computeBounds (allLocations : List Marker) (features : List Feature) : Option LatLngBounds :=
  let locBounds := boundsOfPoints (allLocations.map fun m => (m.latitude, m.longitude))
  if features = [] then locBounds
  else
    match parseAll features with
    | none => locBounds
    | some ptss =>
      match boundsOfPoints ptss.flatten with
      | none => locBounds
      | some fb =>
        match locBounds with
        | some lb => some (extendBounds lb fb)
        | none => some fb

/-- Result of one reconciliation pass: the camera mutations applied and the
value passed to `setBoundsSetForDataHash` (if called). -/
structure PassResult where
  mutations : List CameraMutation
  newHash : Option String
deriving DecidableEq, Repr

/-- The `zoomTo === "currentLocation"` branch of `SetBoundsComponent`. -/
def clBranch (p : SetBoundsProps) (mapReady : Bool) (hash : String) : PassResult :=
  if clHashOf p mapReady = hash then ⟨[], none⟩
  else
    match p.currentLocation with
    | some loc => ⟨[CameraMutation.setView loc.latitude loc.longitude (effectiveZoom p)], some (clHashOf p mapReady)⟩
    | none => ⟨[], none⟩

/-- The default bounds-from-data branch of `SetBoundsComponent` (the
`setTimeout` body re-checks map readiness before applying bounds). -/
def defaultBranch (p : SetBoundsProps) (mapReady mapReadyAtTimer : Bool) (hash : String) : PassResult :=
  if passFingerprint p mapReady = hash then ⟨[], none⟩
  else if allLocationsOf p = [] ∧ p.features = [] then ⟨[], none⟩
  else if mapReadyAtTimer = false then ⟨[], none⟩
  else
    match computeBounds (allLocationsOf p) p.features with
    | some b =>
      if p.autoZoom then ⟨[CameraMutation.fitBounds b], some (passFingerprint p mapReady)⟩
      else ⟨[CameraMutation.setView (boundsCenter b).1 (boundsCenter b).2 13], some (passFingerprint p mapReady)⟩
    | none => ⟨[], none⟩

/-- One evaluation of the `SetBoundsComponent` effect of the integrated
Leaflet component: `mapReady` is `isMapReady()` at effect time,
`mapReadyAtTimer` its re-check inside the timer callback, `drawingActive`
the `window.isLeafletDrawingActive()` probe, and `hash` the current
`boundsSetForDataHash` state. -/
def setBoundsPass (p : SetBoundsProps) (mapReady mapReadyAtTimer drawingActive : Bool) (hash : String) : PassResult :=
  if mapReady = false then ⟨[], some ""⟩
  else if p.enableDrawing = true then ⟨[], none⟩
  else if p.zoomTo = ZoomTarget.currentLocation then clBranch p mapReady hash
  else if drawingActive = true then ⟨[], none⟩
  else defaultBranch p mapReady mapReadyAtTimer hash

/-- The hardcoded default center of the widget
(`const center = \x7b lat: 51.906688, lng: 4.48837 \x7d`). -/
def googleDefaultCenter : ℚ × ℚ :=
  ((51906688 : ℚ) / 1000000, (448837 : ℚ) / 100000)

/-- The camera effect of the `GoogleMap` component: note that an empty
bounds object is extended with the hardcoded default center before a camera
mutation is applied. -/
def googleMapPass (zoomTo : ZoomTarget) (currentLocation : Option Marker)
    (locations : List Marker) (showCurrentLocation autoZoom : Bool)
    (zoomLevel : ℚ) : List CameraMutation :=
  let effectiveZoomLevel := if autoZoom then (15 : ℚ) else zoomLevel
  if zoomTo = ZoomTarget.currentLocation then
    match currentLocation with
    | some loc =>
      [CameraMutation.setCenter loc.latitude loc.longitude,
       CameraMutation.setZoom effectiveZoomLevel]
    | none => []
  else
    let pts := (locations ++ (if showCurrentLocation then currentLocation.toList else [])).map
      fun m => (m.latitude, m.longitude)
    let b :=
      match boundsOfPoints pts with
      | some b0 => b0
      | none => pointBounds googleDefaultCenter
    if autoZoom then [CameraMutation.fitBounds b]
    else [CameraMutation.setCenter (boundsCenter b).1 (boundsCenter b).2]

/-! ## Drawing session manager (`IntegratedDrawingManager`) -/

/-- The host-bound editable string attribute (`EditableValue<string>`). -/
structure Attribute where
  value : String
  readOnly : Bool
deriving DecidableEq, Repr

/-- Outcome of `layersToFeatureCollection` followed by `JSON.stringify`:
either the serialized feature collection, a reported conversion error
(`result.success` false or no `featureCollection`), or a raised
exception. -/
inductive ConvOutcome where
  | success : String → ConvOutcome
  | failure : String → ConvOutcome
  | thrown : ConvOutcome
deriving DecidableEq, Repr

/-- Whether the conversion did not produce a serialized value. -/
def ConvOutcome.failed : ConvOutcome → Bool
  | ConvOutcome.success _ => false
  | ConvOutcome.failure _ => true
  | ConvOutcome.thrown => true

/-- Result of a `saveDrawnItems` call: the attribute afterwards, the values
passed to `setValue` (in order), and whether an exception escaped to the
caller. -/
structure SaveResult where
  attr : Option Attribute
  setValueCalls : List String
  threw : Bool
deriving DecidableEq, Repr

/-- `saveDrawnItems` of `IntegratedDrawingManager`.  `drawnItemsPresent`
models `drawnItemsRef.current` being non-null, `layers` the result of
`getFeatureGroupLayers`, and `conv` the
`layersToFeatureCollection`/`JSON.stringify` pipeline on a layer list. -/
def saveDrawnItems {L : Type} (drawnItemsPresent : Bool) (layers : List L)
    (attr : Option Attribute) (conv : List L → ConvOutcome) : SaveResult :=
  match attr with
  | none => ⟨none, [], false⟩
  | some a =>
    if drawnItemsPresent = false ∨ a.readOnly = true then ⟨some a, [], false⟩
    else if layers.length = 0 then ⟨some ⟨"", a.readOnly⟩, [""], false⟩
    else
      match conv layers with
      | ConvOutcome.success json => ⟨some ⟨json, a.readOnly⟩, [json], false⟩
      | ConvOutcome.failure _ => ⟨some a, [], false⟩
      | ConvOutcome.thrown => ⟨some a, [], false⟩

/-- The live drawing state: the feature group of drawn layers and the bound
attribute. -/
structure DrawState (L : Type) where
  items : List L
  attr : Option Attribute

/-- Result of one drawing event handler: the state afterwards, the values
written to the attribute, whether the host completion callback was invoked,
and whether an exception escaped. -/
structure OpResult (L : Type) where
  state : DrawState L
  setValueCalls : List String
  callbackInvoked : Bool
  threw : Bool

/-- The `draw:created` handler: add the new layer to the feature group,
save the whole group, then invoke the host completion callback if one is
configured. -/
def onDrawCreated {L : Type} (eventLayer : Option L) (hasCallback : Bool)
    (conv : List L → ConvOutcome) (s : DrawState L) : OpResult L :=
  match eventLayer with
  | none => ⟨s, [], false, false⟩
  | some l =>
    let items := s.items ++ [l]
    let sv := saveDrawnItems true items s.attr conv
    ⟨⟨items, sv.attr⟩, sv.setValueCalls, hasCallback, false⟩

/-- The `draw:edited` handler: leaflet-draw has already updated the layer
geometries in place; the handler just re-saves the whole group. -/
def onDrawEdited {L : Type} (conv : List L → ConvOutcome) (s : DrawState L) : OpResult L :=
  let sv := saveDrawnItems true s.items s.attr conv
  ⟨⟨s.items, sv.attr⟩, sv.setValueCalls, false, false⟩

/-- The `draw:deleted` handler: leaflet-draw removes the deleted layers from
the feature group before firing the event; the handler re-saves the
remaining group. -/
def onDrawDeleted {L : Type} [DecidableEq L] (removed : List L)
    (conv : List L → ConvOutcome) (s : DrawState L) : OpResult L :=
  let items := s.items.filter fun l => decide (l ∉ removed)
  let sv := saveDrawnItems true items s.attr conv
  ⟨⟨items, sv.attr⟩, sv.setValueCalls, false, false⟩

/-- Specification-side characterization (from the spec wording, for the
full-replacement claim): the attribute writes a save of collection `items`
is allowed to perform — the empty string when the collection is empty, the
serialization of the entire collection when conversion succeeds, nothing
otherwise. -/
def specFullReplacementWrites {L : Type} (conv : List L → ConvOutcome) (items : List L) : List String :=
  if items.length = 0 then [""]
  else
    match conv items with
    | ConvOutcome.success json => [json]
    | ConvOutcome.failure _ => []
    | ConvOutcome.thrown => []

/-! ## Feature highlight tracker (`GeoJSONLayer`) -/

/-- JavaScript `featureId || null`: the empty string is falsy. -/
def jsOrNull (o : Option String) : Option String :=
  match o with
  | some s => if s = "" then none else some s
  | none => none

/-- The feature-click handler state update: toggle off when the clicked
feature is already highlighted, otherwise highlight the clicked feature
(`highlightedFeatureIdRef.current === featureId` is JavaScript strict
equality, true only when both sides are the same string). -/
def hlClickFeature (featureId : Option String) (cur : Option String) : Option String :=
  match cur, featureId with
  | some c, some f => if c = f then none else jsOrNull (some f)
  | _, _ => jsOrNull featureId

/-- The map-background click handler: clear the highlight. -/
def hlMapBackgroundClick (_cur : Option String) : Option String :=
  none

/-- The synthetic per-feature identifier assigned at render time. -/
def featureIdOf (index : Nat) : String :=
  "feature-" ++ toString index

/-- The properties object attached to each rendered feature by
`geoJSONData` (after the `??` defaulting). -/
structure FeatureProps where
  featureId : String
  stroke : Bool
  color : String
  weight : ℚ
  opacity : ℚ
  fill : Bool
  fillColor : String
  fillOpacity : ℚ
deriving DecidableEq, Repr

/-- The property defaulting performed by `geoJSONData` for feature `f` at
position `index`. -/
def mkFeatureProps (index : Nat) (f : Feature) : FeatureProps :=
  ⟨featureIdOf index,
   f.stroke.getD true,
   f.color.getD "#3388ff",
   f.weight.getD 3,
   f.opacity.getD 1,
   f.fill.getD true,
   f.fillColor.getD "#3388ff",
   f.fillOpacity.getD (1 / 5)⟩

/-- The Leaflet path style produced by the style callbacks. -/
structure PathStyle where
  stroke : Bool
  color : String
  weight : ℚ
  opacity : ℚ
  fill : Bool
  fillColor : String
  fillOpacity : ℚ
deriving DecidableEq, Repr

/-- JavaScript `v || d` on a number (0 is falsy). -/
def jsOrNum (v d : ℚ) : ℚ :=
  if v = 0 then d else v

/-- JavaScript `v || d` on a string (the empty string is falsy). -/
def jsOrStr (v d : String) : String :=
  if v = "" then d else v

/-- The style function installed by `applyHighlight`: highlight styling when
the feature is the highlighted one, plain defaulted styling otherwise. -/
def applyHighlightStyle (featureHighlightColor : String) (highlightedId : Option String)
    (props : FeatureProps) : PathStyle :=
  if some props.featureId = highlightedId then
    { stroke := props.stroke
      color := featureHighlightColor
      weight := jsOrNum props.weight 3 + 2
      opacity := min (jsOrNum props.opacity 1 + 1 / 5) 1
      fill := props.fill
      fillColor := featureHighlightColor
      fillOpacity := min (jsOrNum props.fillOpacity (1 / 5) + 1 / 5) (3 / 5) }
  else
    { stroke := props.stroke
      color := jsOrStr props.color "#3388ff"
      weight := props.weight
      opacity := props.opacity
      fill := props.fill
      fillColor := jsOrStr props.fillColor (jsOrStr props.color "#3388ff")
      fillOpacity := props.fillOpacity }

/-! ## Drawing-mode geolocation (`SetBoundsComponent` in `LeafletMap.tsx`) -/

/-- Outcome of `navigator.geolocation.getCurrentPosition`: success with
coordinates, the error callback, or geolocation being unsupported. -/
inductive GeoOutcome where
  | success : ℚ → ℚ → GeoOutcome
  | failure : GeoOutcome
  | unsupported : GeoOutcome
deriving DecidableEq, Repr

/-- Result of the drawing-mode branch: camera mutations, the hash recorded,
whether a geolocation request was issued, and whether a failure was
surfaced to the host. -/
structure DrawingStepResult where
  mutations : List CameraMutation
  newHash : Option String
  geoRequested : Bool
  hostError : Bool
deriving DecidableEq, Repr

/-- `JSON.stringify(\x7b enableDrawing: true, autoZoom \x7d)`. -/
def drawingDataHash (autoZoom : Bool) : String :=
  "\x7b\"enableDrawing\":true,\"autoZoom\":" ++ jsonBool autoZoom ++ "\x7d"

/-- The `enableDrawing` branch of `SetBoundsComponent` in `LeafletMap.tsx`:
gated by the drawing fingerprint; on success centers on the user location at
zoom 16; on failure or unsupported geolocation falls back to `setZoom 16`
(current center, fixed zoom); the error path only logs. -/
def drawingModeStep (autoZoom : Bool) (hash : String) (geo : GeoOutcome) : DrawingStepResult :=
  if drawingDataHash autoZoom = hash then ⟨[], none, false, false⟩
  else
    match geo with
    | GeoOutcome.success lat lng =>
      ⟨[CameraMutation.setView lat lng 16], some (drawingDataHash autoZoom), true, false⟩
    | GeoOutcome.failure =>
      ⟨[CameraMutation.setZoom 16], some (drawingDataHash autoZoom), true, false⟩
    | GeoOutcome.unsupported =>
      ⟨[CameraMutation.setZoom 16], some (drawingDataHash autoZoom), false, false⟩

/-- The camera mutation the drawing-mode spec prescribes for each
geolocation outcome (specification-side, for claim C9). -/
def specDrawingMutation : GeoOutcome → List CameraMutation
  | GeoOutcome.success lat lng => [CameraMutation.setView lat lng 16]
  | GeoOutcome.failure => [CameraMutation.setZoom 16]
  | GeoOutcome.unsupported => [CameraMutation.setZoom 16]

/-- Whether the drawing-mode spec expects a geolocation request for the
outcome. -/
def specDrawingRequests : GeoOutcome → Bool
  | GeoOutcome.unsupported => false
  | _ => true

/-! ## Helper lemmas -/

/-- If the current-location branch records a hash, it is the branch's own
guard hash. -/
theorem clBranch_hash_eq {p : SetBoundsProps} {mr : Bool} {hash h : String}
    (hs : (clBranch p mr hash).newHash = some h) : h = clHashOf p mr := by
  unfold clBranch at hs
  by_cases hg : clHashOf p mr = hash
  · simp [hg] at hs
  · rw [if_neg hg] at hs
    cases hcl : p.currentLocation with
    | none => rw [hcl] at hs; simp at hs
    | some loc => rw [hcl] at hs; simp at hs; exact hs.symm

/-- Re-running the current-location branch against its own guard hash
applies no camera mutation. -/
theorem clBranch_self (p : SetBoundsProps) (mr : Bool) :
    (clBranch p mr (clHashOf p mr)).mutations = [] := by
  simp [clBranch]

/-- If the default branch records a hash, it is the pass fingerprint. -/
theorem defaultBranch_hash_eq {p : SetBoundsProps} {mr mrt : Bool} {hash h : String}
    (hs : (defaultBranch p mr mrt hash).newHash = some h) : h = passFingerprint p mr := by
  unfold defaultBranch at hs
  by_cases h1 : passFingerprint p mr = hash
  · rw [if_pos h1] at hs; exact absurd hs (by simp)
  · rw [if_neg h1] at hs
    by_cases h2 : allLocationsOf p = [] ∧ p.features = []
    · rw [if_pos h2] at hs; exact absurd hs (by simp)
    · rw [if_neg h2] at hs
      by_cases h3 : mrt = false
      · rw [if_pos h3] at hs; exact absurd hs (by simp)
      · rw [if_neg h3] at hs
        cases hb : computeBounds (allLocationsOf p) p.features with
        | none => rw [hb] at hs; exact absurd hs (by simp)
        | some b =>
          rw [hb] at hs
          cases haz : p.autoZoom <;> simp [haz] at hs <;>
            first
              | exact hs
              | exact hs.symm

/-- Re-running the default branch against its own fingerprint applies no
camera mutation. -/
theorem defaultBranch_self (p : SetBoundsProps) (mr mrt : Bool) :
    (defaultBranch p mr mrt (passFingerprint p mr)).mutations = [] := by
  simp [defaultBranch]

/-- Every branch of a reconciliation pass applies at most one camera
mutation. -/
theorem pass_mutations_le_one (p : SetBoundsProps) (mr mrt da : Bool) (hash : String) :
    (setBoundsPass p mr mrt da hash).mutations.length ≤ 1 := by
  unfold setBoundsPass clBranch defaultBranch
  split_ifs <;> try simp
  all_goals try (cases p.currentLocation <;> simp)
  all_goals cases computeBounds (allLocationsOf p) p.features <;> simp

/-- A pass that recorded its hash applies no mutation when re-run with that
hash and the same inputs. -/
theorem pass_stability {p : SetBoundsProps} {mr mrt da : Bool} {hash h : String}
    (hset : (setBoundsPass p mr mrt da hash).newHash = some h) :
    (setBoundsPass p mr mrt da h).mutations = [] := by
  unfold setBoundsPass at hset ⊢
  by_cases h1 : mr = false
  · simp [h1]
  · simp only [if_neg h1] at hset ⊢
    by_cases h2 : p.enableDrawing = true
    · simp [h2] at hset
    · simp only [if_neg h2] at hset ⊢
      by_cases h3 : p.zoomTo = ZoomTarget.currentLocation
      · simp only [if_pos h3] at hset ⊢
        rw [clBranch_hash_eq hset]
        exact clBranch_self p mr
      · simp only [if_neg h3] at hset ⊢
        by_cases h4 : da = true
        · simp [h4] at hset
        · simp only [if_neg h4] at hset ⊢
          rw [defaultBranch_hash_eq hset]
          exact defaultBranch_self p mr mrt

/-- A malformed geometry anywhere in the feature list makes the mapped
`JSON.parse` throw. -/
theorem parseAll_eq_none {features : List Feature}
    (h : ∃ f ∈ features, f.geoJSON = GeomSrc.malformed) : parseAll features = none := by
  induction features with
  | nil => simp at h
  | cons f fs ih =>
    obtain ⟨g, hg, hmal⟩ := h
    unfold parseAll
    rcases List.mem_cons.mp hg with hfg | hmem
    · rw [hfg] at hmal; rw [hmal]
    · cases hf : f.geoJSON with
      | malformed => rfl
      | geom pts => rw [ih ⟨g, hmem, hmal⟩]

/-- With empty effective data on the default path, the pass neither mutates
the camera nor records a hash. -/
theorem defaultBranch_empty (p : SetBoundsProps) (mr mrt : Bool) (hash : String)
    (hallE : allLocationsOf p = []) (hfE : p.features = []) :
    defaultBranch p mr mrt hash = ⟨[], none⟩ := by
  unfold defaultBranch
  by_cases h1 : passFingerprint p mr = hash
  · rw [if_pos h1]
  · rw [if_neg h1, if_pos ⟨hallE, hfE⟩]

/-- A ready pass on the default (markers, non-drawing) path with empty
effective data is a no-op. -/
theorem setBoundsPass_empty_default (p : SetBoundsProps) (mrt da : Bool) (hash : String)
    (hdraw : p.enableDrawing = false) (hzoom : p.zoomTo = ZoomTarget.markers)
    (hallE : allLocationsOf p = []) (hfE : p.features = []) :
    setBoundsPass p true mrt da hash = ⟨[], none⟩ := by
  unfold setBoundsPass
  rw [if_neg (by simp), if_neg (by simp [hdraw]), if_neg (by simp [hzoom])]
  by_cases hda : da = true
  · rw [if_pos hda]
  · rw [if_neg hda]
    exact defaultBranch_empty p true mrt hash hallE hfE

/-! ## Claim theorems -/

/-- C1 (counterexample): with zero locations, zero features and autozoom
enabled, the Google Maps reconciler applies a `fitBounds` camera mutation at
the hardcoded default coordinate (51.906688, 4.48837), contradicting the
claim that no camera mutation and no hardcoded fallback coordinate is ever
applied on empty data. -/
theorem google_empty_data_hardcoded_fallback :
    googleMapPass ZoomTarget.markers none [] false true 3
      = [CameraMutation.fitBounds (pointBounds googleDefaultCenter)] ∧
    googleMapPass ZoomTarget.markers none [] false true 3 ≠ [] := by
  have h : googleMapPass ZoomTarget.markers none [] false true 3
      = [CameraMutation.fitBounds (pointBounds googleDefaultCenter)] := rfl
  exact ⟨h, by rw [h]; simp⟩

/-- C1 (amended): in the default bounds-from-data path of the Leaflet
reconciler, a pass with zero locations and zero features and autozoom
enabled applies no camera mutation and records no hash (it waits for data);
the Google Maps reconciler instead falls back to the hardcoded default
center and applies `fitBounds` on it. -/
theorem empty_data_guard (zoomLevel : ℚ) (cl : Option Marker) (scl da : Bool) (hash : String)
    (hEmpty : scl = false ∨ cl = none) :
    setBoundsPass ⟨true, cl, [], [], false, ZoomTarget.markers, zoomLevel, scl⟩ true true da hash
      = ⟨[], none⟩ ∧
    googleMapPass ZoomTarget.markers none [] false true zoomLevel
      = [CameraMutation.fitBounds (pointBounds googleDefaultCenter)] := by
  constructor
  · apply setBoundsPass_empty_default
    · rfl
    · rfl
    · rcases hEmpty with hE | hE <;> simp [allLocationsOf, hE]
    · rfl
  · rfl

/-- C1 (witness). -/
theorem empty_data_guard_witness :
    setBoundsPass ⟨true, none, [], [], false, ZoomTarget.markers, 3, false⟩ true true false ""
      = ⟨[], none⟩ ∧
    googleMapPass ZoomTarget.markers none [] false true 3
      = [CameraMutation.fitBounds (pointBounds googleDefaultCenter)] :=
  empty_data_guard 3 none false false "" (Or.inl rfl)

/-- First example input of the fingerprint counterexample: one feature whose
geometry covers the point (0, 0). -/
def fpExampleProps1 : SetBoundsProps :=
  ⟨true, none, [], [{ geoJSON := GeomSrc.geom [(0, 0)] }], false, ZoomTarget.markers, 3, false⟩

/-- Second example input: identical except that the feature geometry content
now covers the point (10, 10); the feature count is unchanged. -/
def fpExampleProps2 : SetBoundsProps :=
  ⟨true, none, [], [{ geoJSON := GeomSrc.geom [(10, 10)] }], false, ZoomTarget.markers, 3, false⟩

/-- C2 (counterexample): changing a feature's geometry content (which
changes the computed viewport bounds) does not change the fingerprint: the
first pass records the fingerprint for the (0,0) geometry, and the
subsequent pass for the (10,10) geometry is skipped entirely, so the
viewport-affecting change yields no new fingerprint and no mutation. -/
theorem fingerprint_misses_geometry_change :
    passFingerprint fpExampleProps1 true = passFingerprint fpExampleProps2 true ∧
    computeBounds (allLocationsOf fpExampleProps1) fpExampleProps1.features
      ≠ computeBounds (allLocationsOf fpExampleProps2) fpExampleProps2.features ∧
    setBoundsPass fpExampleProps1 true true false ""
      = ⟨[CameraMutation.fitBounds ⟨0, 0, 0, 0⟩], some (passFingerprint fpExampleProps1 true)⟩ ∧
    (setBoundsPass fpExampleProps2 true true false (passFingerprint fpExampleProps1 true)).mutations
      = [] := by
  refine ⟨rfl, ?_, rfl, rfl⟩
  have h1 : computeBounds (allLocationsOf fpExampleProps1) fpExampleProps1.features
      = some ⟨0, 0, 0, 0⟩ := rfl
  have h2 : computeBounds (allLocationsOf fpExampleProps2) fpExampleProps2.features
      = some ⟨10, 10, 10, 10⟩ := rfl
  rw [h1, h2]
  intro hcontra
  have := (Option.some.injEq _ _).mp hcontra
  have hs : (0 : ℚ) = 10 := congrArg LatLngBounds.south this
  norm_num at hs

/-- C2 (amended): the fingerprint guard gives at-most-one camera mutation
per pass and suppresses the second of two structurally identical passes
(exactly one mutation, not two); the fingerprint is determined by the
effective locations, the feature count and the autozoom flag (plus
readiness) — so it changes with those inputs but, contrary to the original
claim, is insensitive to feature geometry content at fixed feature count. -/
theorem fingerprint_stability (p : SetBoundsProps) (mr mrt da : Bool) (hash : String) :
    (setBoundsPass p mr mrt da hash).mutations.length ≤ 1 ∧
    (∀ h, (setBoundsPass p mr mrt da hash).newHash = some h →
      (setBoundsPass p mr mrt da h).mutations = []) ∧
    (∀ q : SetBoundsProps, allLocationsOf p = allLocationsOf q →
      p.features.length = q.features.length → p.autoZoom = q.autoZoom →
      passFingerprint p mr = passFingerprint q mr) := by
  refine ⟨pass_mutations_le_one p mr mrt da hash, ?_, ?_⟩
  · intro h hset
    exact pass_stability hset
  · intro q hl hf ha
    unfold passFingerprint
    rw [hl, hf, ha]

/-- C2 (witness): the first pass on concrete data records its fingerprint
and the identical second pass applies no camera mutation. -/
theorem fingerprint_stability_witness :
    (setBoundsPass fpExampleProps1 true true false (passFingerprint fpExampleProps1 true)).mutations
      = [] := by
  have h := (fingerprint_stability fpExampleProps1 true true false "").2.1
  exact h (passFingerprint fpExampleProps1 true) rfl

/-- The valid feature of the malformed-geometry counterexample. -/
def validFeatureExample : Feature :=
  { geoJSON := GeomSrc.geom [(10, 20)] }

/-- The malformed feature of the counterexample. -/
def malformedFeatureExample : Feature :=
  { geoJSON := GeomSrc.malformed }

/-- The reconciler props of the malformed-geometry counterexample: one valid
and one malformed feature, no locations, autozoom on. -/
def malformedExampleProps : SetBoundsProps :=
  ⟨true, none, [], [validFeatureExample, malformedFeatureExample], false,
   ZoomTarget.markers, 3, false⟩

/-- C3 (counterexample): with one valid geometry (around (10, 20)) and one
malformed geometry, the pass produces no bounding region at all and applies
no camera mutation — the valid geometry alone would have produced the
region (10, 20)-(10, 20), so the computation is aborted wholesale rather
than skipping only the offending feature. -/
theorem malformed_geometry_drops_valid_features :
    computeBounds [] [validFeatureExample, malformedFeatureExample] = none ∧
    computeBounds [] [validFeatureExample] = some ⟨10, 20, 10, 20⟩ ∧
    setBoundsPass malformedExampleProps true true false "" = ⟨[], none⟩ :=
  ⟨rfl, rfl, rfl⟩

/-- C3 (amended): a malformed geometry string never throws to the host (the
pass is total and the exception is caught), but it aborts the entire
feature-bounds computation: the computed region degrades to exactly the
locations-only region, dropping all feature geometries, not only the
offending one. -/
theorem malformed_geometry_resilience (locs : List Marker) (features : List Feature)
    (h : ∃ f ∈ features, f.geoJSON = GeomSrc.malformed) :
    computeBounds locs features = computeBounds locs [] := by
  have hne : features ≠ [] := by
    rintro rfl
    simp at h
  unfold computeBounds
  rw [if_neg hne, parseAll_eq_none h, if_pos rfl]

/-- C3 (witness): a location plus a malformed feature yields exactly the
locations-only bounds. -/
theorem malformed_geometry_resilience_witness :
    computeBounds [⟨1, 2⟩] [malformedFeatureExample]
      = computeBounds [⟨1, 2⟩] [] :=
  malformed_geometry_resilience [⟨1, 2⟩] [malformedFeatureExample]
    ⟨malformedFeatureExample, by simp, rfl⟩

/-- A writable save emits exactly the full-replacement write sequence of
the current collection. -/
theorem saveDrawnItems_writable_calls {L : Type} (a : Attribute) (hro : a.readOnly = false)
    (items : List L) (conv : List L → ConvOutcome) :
    (saveDrawnItems true items (some a) conv).setValueCalls
      = specFullReplacementWrites conv items := by
  by_cases h : items.length = 0
  · simp [saveDrawnItems, specFullReplacementWrites, hro, h]
  · cases hc : conv items <;>
      simp [saveDrawnItems, specFullReplacementWrites, hro, h, hc]

/-- A writable save on a non-empty collection stores exactly the
serialization of the whole collection (or leaves the value unchanged on
conversion failure). -/
theorem saveDrawnItems_readonly_noop {L : Type} (present : Bool) (items : List L)
    (a : Attribute) (hro : a.readOnly = true) (conv : List L → ConvOutcome) :
    saveDrawnItems present items (some a) conv = ⟨some a, [], false⟩ := by
  simp [saveDrawnItems, hro]

/-- C4: with the bound attribute marked read-only, creating, editing and
deleting shapes never calls `setValue` and leaves the attribute untouched,
while the visual shape collection is still updated (the created layer is
added, the deleted layers are removed). -/
theorem readonly_attribute_never_written {L : Type} [DecidableEq L]
    (items : List L) (l : L) (removed : List L) (hasCallback : Bool)
    (conv : List L → ConvOutcome) (a : Attribute) (hro : a.readOnly = true) :
    (onDrawCreated (some l) hasCallback conv ⟨items, some a⟩).setValueCalls = [] ∧
    (onDrawCreated (some l) hasCallback conv ⟨items, some a⟩).state.attr = some a ∧
    (onDrawCreated (some l) hasCallback conv ⟨items, some a⟩).state.items = items ++ [l] ∧
    (onDrawEdited conv ⟨items, some a⟩).setValueCalls = [] ∧
    (onDrawEdited conv ⟨items, some a⟩).state.attr = some a ∧
    (onDrawDeleted removed conv ⟨items, some a⟩).setValueCalls = [] ∧
    (onDrawDeleted removed conv ⟨items, some a⟩).state.attr = some a ∧
    (onDrawDeleted removed conv ⟨items, some a⟩).state.items
      = items.filter fun x => decide (x ∉ removed) := by
  simp [onDrawCreated, onDrawEdited, onDrawDeleted, saveDrawnItems, hro]

/-- C4 (witness). -/
theorem readonly_attribute_never_written_witness :
    (onDrawCreated (some 7) true (fun _ => ConvOutcome.success "x") ⟨[5], some ⟨"v", true⟩⟩).setValueCalls
      = [] ∧
    (onDrawCreated (some 7) true (fun _ => ConvOutcome.success "x") ⟨[5], some ⟨"v", true⟩⟩).state.items
      = [5, 7] := by
  have h := readonly_attribute_never_written [5] 7 ([] : List ℕ) true
    (fun _ => ConvOutcome.success "x") ⟨"v", true⟩ rfl
  exact ⟨h.1, h.2.2.1⟩

/-- C5: removing the last drawn shapes on a writable attribute writes the
empty string to the attribute — exactly one `setValue` call with value `""`
(not an empty FeatureCollection serialization and not no call at all). -/
theorem empty_drawing_clears_attribute {L : Type} [DecidableEq L]
    (items : List L) (removed : List L) (conv : List L → ConvOutcome) (a : Attribute)
    (hro : a.readOnly = false)
    (hemp : (items.filter fun x => decide (x ∉ removed)) = []) :
    (onDrawDeleted removed conv ⟨items, some a⟩).setValueCalls = [""] ∧
    (onDrawDeleted removed conv ⟨items, some a⟩).state.attr = some ⟨"", false⟩ ∧
    (onDrawDeleted removed conv ⟨items, some a⟩).state.items = [] := by
  simp only [onDrawDeleted, hemp]
  simp [saveDrawnItems, hro]

/-- C5 (witness): deleting the only drawn shape clears the attribute. -/
theorem empty_drawing_clears_attribute_witness :
    (onDrawDeleted [3] (fun _ => ConvOutcome.thrown) ⟨[3], some ⟨"old", false⟩⟩ : OpResult ℕ).setValueCalls
      = [""] ∧
    (onDrawDeleted [3] (fun _ => ConvOutcome.thrown) ⟨[3], some ⟨"old", false⟩⟩ : OpResult ℕ).state.attr
      = some ⟨"", false⟩ := by
  have h := empty_drawing_clears_attribute [3] [3] (fun _ => ConvOutcome.thrown)
    ⟨"old", false⟩ rfl (by simp)
  exact ⟨h.1, h.2.1⟩

/-- C6: every create/edit/delete on a writable attribute re-serializes the
entire live collection as a full replacement (the only possible writes are
the serialization of the whole post-operation collection, or the empty
string when it is empty), and the host completion callback fires exactly on
creation (when configured) and never on edit or delete. -/
theorem full_replacement_and_callback {L : Type} [DecidableEq L]
    (s : DrawState L) (a : Attribute) (l : L) (removed : List L) (hasCallback : Bool)
    (conv : List L → ConvOutcome) (hattr : s.attr = some a) (hro : a.readOnly = false) :
    (onDrawCreated (some l) hasCallback conv s).setValueCalls
      = specFullReplacementWrites conv (s.items ++ [l]) ∧
    (onDrawCreated (some l) hasCallback conv s).callbackInvoked = hasCallback ∧
    (onDrawEdited conv s).setValueCalls = specFullReplacementWrites conv s.items ∧
    (onDrawEdited conv s).callbackInvoked = false ∧
    (onDrawDeleted removed conv s).setValueCalls
      = specFullReplacementWrites conv (s.items.filter fun x => decide (x ∉ removed)) ∧
    (onDrawDeleted removed conv s).callbackInvoked = false := by
  simp [onDrawCreated, onDrawEdited, onDrawDeleted, hattr,
    saveDrawnItems_writable_calls a hro]

/-- C6 (witness): on a two-shape collection, creation writes the
serialization of all three shapes and fires the callback; edit and delete
never fire it. -/
theorem full_replacement_and_callback_witness :
    (onDrawCreated (some 3) true (fun xs => ConvOutcome.success (toString xs.length))
        ⟨[1, 2], some ⟨"v", false⟩⟩).setValueCalls = ["3"] ∧
    (onDrawCreated (some 3) true (fun xs => ConvOutcome.success (toString xs.length))
        ⟨[1, 2], some ⟨"v", false⟩⟩).callbackInvoked = true ∧
    (onDrawEdited (fun xs => ConvOutcome.success (toString xs.length))
        ⟨[1, 2], some ⟨"v", false⟩⟩ : OpResult ℕ).callbackInvoked = false := by
  have h := full_replacement_and_callback (⟨[1, 2], some ⟨"v", false⟩⟩ : DrawState ℕ)
    ⟨"v", false⟩ 3 [] true (fun xs => ConvOutcome.success (toString xs.length)) rfl rfl
  exact ⟨h.1, h.2.1, h.2.2.2.1⟩

/-- C10: the save is atomic with respect to errors — if the feature group
or the bound attribute is missing, or the conversion of a non-empty
collection fails or throws, the attribute is left completely unchanged and
no `setValue` call happens; moreover no exception ever escapes
`saveDrawnItems`. -/
theorem save_atomic_on_error {L : Type} (present : Bool) (layers : List L)
    (attr : Option Attribute) (conv : List L → ConvOutcome) :
    (present = false ∨ attr = none ∨
        (layers ≠ [] ∧ (conv layers).failed = true) →
      (saveDrawnItems present layers attr conv).attr = attr ∧
      (saveDrawnItems present layers attr conv).setValueCalls = []) ∧
    (saveDrawnItems present layers attr conv).threw = false := by
  constructor
  · intro hfail
    cases attr with
    | none => simp [saveDrawnItems]
    | some a =>
      by_cases hg : present = false ∨ a.readOnly = true
      · simp [saveDrawnItems, hg]
      · rcases hfail with hp | hn | ⟨hne, hcf⟩
        · exact absurd (Or.inl hp) hg
        · exact absurd hn (by simp)
        · have hlen : ¬layers.length = 0 := by
            simpa [List.length_eq_zero] using hne
          cases hc : conv layers with
          | success j => rw [hc] at hcf; simp [ConvOutcome.failed] at hcf
          | failure e => simp [saveDrawnItems, hg, hlen, hc]
          | thrown => simp [saveDrawnItems, hg, hlen, hc]
  · cases attr with
    | none => simp [saveDrawnItems]
    | some a =>
      by_cases hg : present = false ∨ a.readOnly = true
      · simp [saveDrawnItems, hg]
      · by_cases hl : layers.length = 0
        · simp [saveDrawnItems, hg, hl]
        · cases hc : conv layers <;> simp [saveDrawnItems, hg, hl, hc]

/-- C10 (witness): a throwing conversion leaves the attribute untouched and
raises nothing. -/
theorem save_atomic_on_error_witness :
    (saveDrawnItems true [4] (some ⟨"keep", false⟩) (fun _ : List ℕ => ConvOutcome.thrown)).attr
      = some ⟨"keep", false⟩ ∧
    (saveDrawnItems true [4] (some ⟨"keep", false⟩) (fun _ : List ℕ => ConvOutcome.thrown)).setValueCalls
      = [] ∧
    (saveDrawnItems true [4] (some ⟨"keep", false⟩) (fun _ : List ℕ => ConvOutcome.thrown)).threw
      = false := by
  have h := save_atomic_on_error true [4] (some ⟨"keep", false⟩)
    (fun _ : List ℕ => ConvOutcome.thrown)
  have h1 := h.1 (Or.inr (Or.inr ⟨by simp, rfl⟩))
  exact ⟨h1.1, h1.2, h.2⟩

/-- C7: the highlight tracker stores at most one feature id (an
`Option String`) with toggle semantics — clicking a non-highlighted feature
highlights it (implicitly clearing any previous one), clicking the
highlighted feature clears the highlight, clicking the map background
clears the highlight, and clicking a different feature moves the highlight
to it. -/
theorem highlight_toggle (s : Option String) (f g : String)
    (hf : f ≠ "") (hg : g ≠ "") (hfg : f ≠ g) :
    (s ≠ some f → hlClickFeature (some f) s = some f) ∧
    hlClickFeature (some f) (some f) = none ∧
    hlMapBackgroundClick s = none ∧
    hlClickFeature (some g) (some f) = some g := by
  refine ⟨?_, ?_, rfl, ?_⟩
  · intro hne
    cases s with
    | none => simp [hlClickFeature, jsOrNull, hf]
    | some c =>
      have hcf : c ≠ f := fun hc => hne (by rw [hc])
      simp [hlClickFeature, jsOrNull, hf, hcf]
  · simp [hlClickFeature]
  · simp [hlClickFeature, jsOrNull, hg, hfg]

/-- C7 (witness): the four transitions at the concrete ids feature-0 and
feature-1, starting from feature-1 highlighted. -/
theorem highlight_toggle_witness :
    hlClickFeature (some (featureIdOf 0)) (some (featureIdOf 1)) = some (featureIdOf 0) ∧
    hlClickFeature (some (featureIdOf 0)) (some (featureIdOf 0)) = none ∧
    hlMapBackgroundClick (some (featureIdOf 1)) = none ∧
    hlClickFeature (some (featureIdOf 1)) (some (featureIdOf 0)) = some (featureIdOf 1) := by
  have h := highlight_toggle (some (featureIdOf 1)) (featureIdOf 0) (featureIdOf 1)
    (by decide) (by decide) (by decide)
  exact ⟨h.1 (by decide), h.2.1, h.2.2.1, h.2.2.2⟩

/-- C8 (counterexample): a feature with an explicit weight override of 0
renders with weight 0 when not highlighted but weight 5 when highlighted —
the JavaScript falsy-default `(props.weight || 3) + 2` treats the 0
override as unset, so the boost is not the claimed exact +2 (which would
give 2). -/
theorem highlight_boost_not_plus_two :
    (applyHighlightStyle "#ff0000" none
        (mkFeatureProps 0 { geoJSON := GeomSrc.geom [], weight := some 0 })).weight = 0 ∧
    (applyHighlightStyle "#ff0000" (some "feature-0")
        (mkFeatureProps 0 { geoJSON := GeomSrc.geom [], weight := some 0 })).weight = 5 ∧
    (5 : ℚ) ≠ 0 + 2 := by
  refine ⟨rfl, ?_, by norm_num⟩
  have hid : featureIdOf 0 = "feature-0" := rfl
  norm_num [applyHighlightStyle, mkFeatureProps, hid, jsOrNum]

/-- C8 (amended): the non-highlighted style is exactly the feature's own
overrides with defaults, and for features whose numeric overrides are
nonzero (and whose colors are non-empty) the highlighted style replaces
stroke and fill color with the configured highlight color, boosts the
weight by exactly +2, the opacity by +0.2 capped at 1.0 and the
fill-opacity by +0.2 capped at 0.6; for a zero numeric override the
highlight branch falls back to the default base value first. -/
theorem highlight_style_boosts (c : String) (p : FeatureProps)
    (hw : p.weight ≠ 0) (ho : p.opacity ≠ 0) (hfo : p.fillOpacity ≠ 0)
    (hc : p.color ≠ "") (hfc : p.fillColor ≠ "") :
    applyHighlightStyle c none p
      = ⟨p.stroke, p.color, p.weight, p.opacity, p.fill, p.fillColor, p.fillOpacity⟩ ∧
    applyHighlightStyle c (some p.featureId) p
      = ⟨p.stroke, c, p.weight + 2, min (p.opacity + 1 / 5) 1, p.fill, c,
         min (p.fillOpacity + 1 / 5) (3 / 5)⟩ := by
  constructor
  · simp [applyHighlightStyle, jsOrStr, hc, hfc]
  · simp [applyHighlightStyle, jsOrNum, hw, ho, hfo]

/-- C8 (witness): a feature with weight 4, opacity 1/2, fill-opacity 1/10
gets weight 6, opacity 7/10, fill-opacity 3/10 when highlighted. -/
theorem highlight_style_boosts_witness :
    applyHighlightStyle "#ff0000" none ⟨"feature-2", true, "#00ff00", 4, 1 / 2, true, "#112233", 1 / 10⟩
      = ⟨true, "#00ff00", 4, 1 / 2, true, "#112233", 1 / 10⟩ ∧
    applyHighlightStyle "#ff0000" (some "feature-2")
        ⟨"feature-2", true, "#00ff00", 4, 1 / 2, true, "#112233", 1 / 10⟩
      = ⟨true, "#ff0000", 4 + 2, min (1 / 2 + 1 / 5) 1, true, "#ff0000",
         min (1 / 10 + 1 / 5) (3 / 5)⟩ := by
  have h := highlight_style_boosts "#ff0000"
    ⟨"feature-2", true, "#00ff00", 4, 1 / 2, true, "#112233", 1 / 10⟩
    (by norm_num) (by norm_num) (by norm_num) (by decide) (by decide)
  exact h

/-- C9: on drawing-mode activation the reconciler issues exactly one
geolocation request per activation, gated by the drawing fingerprint (once
the fingerprint is recorded, later passes issue no request and no
mutation); on success it centers on the user location at the fixed zoom 16
(`setView`); on failure or unsupported geolocation it falls back to
`setZoom 16` (current center, same fixed zoom); and no path surfaces an
error to the host. -/
theorem drawing_mode_geolocation (autoZoom : Bool) (hash : String) (geo : GeoOutcome) :
    (drawingModeStep autoZoom hash geo).hostError = false ∧
    (drawingDataHash autoZoom = hash →
      drawingModeStep autoZoom hash geo = ⟨[], none, false, false⟩) ∧
    (drawingDataHash autoZoom ≠ hash →
      (drawingModeStep autoZoom hash geo).mutations = specDrawingMutation geo ∧
      (drawingModeStep autoZoom hash geo).newHash = some (drawingDataHash autoZoom) ∧
      (drawingModeStep autoZoom hash geo).geoRequested = specDrawingRequests geo) ∧
    (drawingModeStep autoZoom (drawingDataHash autoZoom) geo).geoRequested = false := by
  by_cases hsame : drawingDataHash autoZoom = hash <;>
    cases geo <;>
      simp [drawingModeStep, specDrawingMutation, specDrawingRequests, hsame]

/-- C9 (witness): with a fresh state a successful geolocation at (1, 2)
requests the location and applies `setView (1, 2) 16`; once the fingerprint
is recorded no further request is made. -/
theorem drawing_mode_geolocation_witness :
    (drawingModeStep true "" (GeoOutcome.success 1 2)).mutations
      = [CameraMutation.setView 1 2 16] ∧
    (drawingModeStep true "" (GeoOutcome.success 1 2)).hostError = false ∧
    (drawingModeStep true (drawingDataHash true) (GeoOutcome.success 1 2)).geoRequested
      = false := by
  have h := drawing_mode_geolocation true "" (GeoOutcome.success 1 2)
  have h2 := (h.2.2.1 (by decide)).1
  exact ⟨h2, h.1, h.2.2.2⟩
